import Mathlib

/-!
# Verification of the layout-adaptation and output-aliasing dispatch layer

This file gives a shallow embedding, in Lean 4, of the dispatch layer of a
BLAS wrapper crate: the layout classifier (`get_layout_array2`), the
output-aliasing container (`ArrayOut`), the transpose/triangle flip rules
(`flip_trans_fpref` / `flip_trans_cpref`), and the builder/driver pipelines of
the two representative operations — the packed triangular solve (TPSV) and the
symmetric/Hermitian rank-k update (SYRK).

Strided 2-D operands are modelled as a shape, a pair of integer strides, and
a logical value function; the native kernels (out of scope for the crate,
reached only through FFI) are modelled as opaque function parameters, so that
theorems about dispatch hold for every possible kernel behaviour.  Panics
(`assert!`, unreachable match arms) are modelled as a distinguished error
value, and `Result` as `Except`.
-/

namespace BlasArray2

/-- Memory-layout tag of a 2-D operand (`BLASLayout` in the crate). -/
inductive BLASLayout where
  | Sequential
  | RowMajor
  | ColMajor
  | NonContiguous
deriving DecidableEq, Repr

/-- Transpose selector (`BLASTranspose` in the crate).  `ConjNoTrans` stands
for the extra enum variants that every `match` in the crate sends to the
`blas_invalid!` arm. -/
inductive BLASTranspose where
  | NoTrans
  | Trans
  | ConjTrans
  | ConjNoTrans
deriving DecidableEq, Repr

/-- Triangle selector (`BLASUpLo` in the crate), with the undefined variant
that the wrappers reject. -/
inductive BLASUpLo where
  | Upper
  | Lower
  | UndefinedUpLo
deriving DecidableEq, Repr

/-- Unit-diagonal selector (`BLASDiag` in the crate). -/
inductive BLASDiag where
  | NonUnit
  | UnitDiag
deriving DecidableEq, Repr

/-- Typed errors of the dispatch layer.  `panicErr` models a Rust panic
(`assert!` failure or an unreachable arm), which is not a recoverable
`BLASError` in the crate but is made explicit here. -/
inductive BLASError where
  | invalidTrans
  | invalidUpLo
  | incompatibleDims
  | invalidDim
  | overflow
  | panicErr
deriving DecidableEq, Repr

open BLASLayout BLASTranspose BLASUpLo BLASDiag

/-- A strided 2-D view: logical shape `(d0, d1)`, element strides `(s0, s1)`
(in elements, possibly zero or negative), and the logical element values.
Models `ndarray::ArrayView2` / `Array2` / `CowArray2`. -/
structure MatView (F : Type) where
  d0 : Nat
  d1 : Nat
  s0 : Int
  s1 : Int
  get : Nat → Nat → F

/-- A strided 1-D view: logical length, element stride, values.  Models
`ndarray::ArrayView1` / `ArrayViewMut1`. -/
structure VecView (F : Type) where
  len : Nat
  stride : Int
  get : Nat → F

namespace MatView

/-- `ndarray`'s `.t()`: transposed view, swapping dimensions and strides;
zero copy, values reindexed. -/
def t {F : Type} (m : MatView F) : MatView F :=
  ⟨m.d1, m.d0, m.s1, m.s0, fun i j => m.get j i⟩

/-- `ndarray`'s `.as_standard_layout()` / `.into_owned()` on the result: a
C-contiguous (row-major) buffer holding the same logical values:
strides become `(d1, 1)`. -/
def std {F : Type} (m : MatView F) : MatView F :=
  ⟨m.d0, m.d1, (m.d1 : Int), 1, m.get⟩

/-- `ndarray`'s `.mapv(F::conj)`: an owned standard-layout array whose
values are conjugated. -/
def mapvConj {F : Type} (conj : F → F) (m : MatView F) : MatView F :=
  ⟨m.d0, m.d1, (m.d1 : Int), 1, fun i j => conj (m.get i j)⟩

/-- `ndarray`'s `assign`: overwrite the target's logical values with the
source's, keeping the target's shape and strides (the crate only calls it on
shape-equal pairs; `ndarray` panics otherwise). -/
def assign {F : Type} (target src : MatView F) : MatView F :=
  ⟨target.d0, target.d1, target.s0, target.s1, src.get⟩

/-- `Array2::zeros((n, n).f())`: an f-order (column-major) zero buffer. -/
def zerosF {F : Type} (z : F) (n : Nat) : MatView F :=
  ⟨n, n, 1, (n : Int), fun _ _ => z⟩

end MatView

namespace VecView

/-- 1-D `.as_standard_layout()`: contiguous buffer, same logical values. -/
def std {F : Type} (v : VecView F) : VecView F :=
  ⟨v.len, 1, v.get⟩

/-- 1-D `.mapv_inplace(F::conj)`: conjugate every element in place. -/
def mapConj {F : Type} (conj : F → F) (v : VecView F) : VecView F :=
  ⟨v.len, v.stride, fun i => conj (v.get i)⟩

end VecView

/-- `get_layout_array2` (src/util/util_ndarray.rs): classify a 2-D view's
layout from its shape and strides alone. -/
def get_layout_array2 {F : Type} (arr : MatView F) : BLASLayout :=
  if arr.d0 = 0 ∨ arr.d1 = 0 then BLASLayout.Sequential
  else if arr.d0 = 1 ∧ arr.d1 = 1 then BLASLayout.Sequential
  else if arr.s1 = 1 then BLASLayout.RowMajor
  else if arr.s0 = 1 then BLASLayout.ColMajor
  else BLASLayout.NonContiguous

/-- Modelled from the spec (the `BLASLayout` helper impl is not among the
provided sources): a layout is Fortran-preferred when it is column-major or
degenerate — "if the operand is already column-major-preferred (or
sequential), use it unmodified". -/
def BLASLayout.is_fpref : BLASLayout → Bool
  | BLASLayout.ColMajor => true
  | BLASLayout.Sequential => true
  | _ => false

/-- Modelled from the spec (the `BLASLayout` helper impl is not among the
provided sources): a layout is C-preferred when it is row-major or
degenerate. -/
def BLASLayout.is_cpref : BLASLayout → Bool
  | BLASLayout.RowMajor => true
  | BLASLayout.Sequential => true
  | _ => false

/-- Modelled from the spec (the `BLASTranspose` helper impl is not among the
provided sources): flipping a transpose selector between the no-transpose and
transposed readings; under a Hermitian operation the flip of no-transpose is
conjugate-transpose (Hermitian kernels accept {no-transpose,
conjugate-transpose} only), otherwise plain transpose; both transposed
selectors flip back to no-transpose. -/
def BLASTranspose.flip (t : BLASTranspose) (hermi : Bool) : BLASTranspose :=
  match t with
  | BLASTranspose.NoTrans => if hermi then BLASTranspose.ConjTrans else BLASTranspose.Trans
  | BLASTranspose.Trans => BLASTranspose.NoTrans
  | BLASTranspose.ConjTrans => BLASTranspose.NoTrans
  | BLASTranspose.ConjNoTrans => BLASTranspose.ConjNoTrans

/-- Modelled from the spec (the `BLASUpLo` helper impl is not among the
provided sources): "the triangle selector (upper/lower) must also be flipped
(upper becomes lower and vice versa)". -/
def BLASUpLo.flip : BLASUpLo → BLASUpLo
  | BLASUpLo.Upper => BLASUpLo.Lower
  | BLASUpLo.Lower => BLASUpLo.Upper
  | BLASUpLo.UndefinedUpLo => BLASUpLo.UndefinedUpLo

/-- Modelled from the spec (the layout-election helper is not among the
provided sources): elect the global layout — first any explicitly preferring
entry of the priority list (the caller hint, then the output operand), then
unanimity among the remaining operands, defaulting to row-major. -/
def get_layout_row_preferred (by_first : List (Option BLASLayout))
    (by_all : List BLASLayout) : BLASLayout :=
  match by_first with
  | [] =>
    if by_all.all (fun l => l.is_cpref) then BLASLayout.RowMajor
    else if by_all.all (fun l => l.is_fpref) then BLASLayout.ColMajor
    else BLASLayout.RowMajor
  | none :: rest => get_layout_row_preferred rest by_all
  | some l :: rest =>
    if l.is_cpref then BLASLayout.RowMajor
    else if l.is_fpref then BLASLayout.ColMajor
    else get_layout_row_preferred rest by_all

/-- The `c_int` narrowing of a `usize` dimension (`n.try_into()?`):
succeeds exactly when the value fits a 32-bit signed integer. -/
def tryIntoCNat (n : Nat) : Except BLASError Int :=
  if n ≤ 2 ^ 31 - 1 then Except.ok (n : Int) else Except.error BLASError.overflow

/-- The `c_int` narrowing of an `isize` stride (`incx.try_into()?`):
succeeds exactly when the value fits a 32-bit signed integer. -/
def tryIntoCInt (i : Int) : Except BLASError Int :=
  if -(2 ^ 31) ≤ i ∧ i ≤ 2 ^ 31 - 1 then Except.ok i else Except.error BLASError.overflow

/-- The output-aliasing container `ArrayOut` (src/util/util_ndarray.rs):
a caller-supplied mutable view, a freshly allocated buffer, or a pair of a
caller view and a shadow buffer to be assigned back. -/
inductive ArrayOut (A : Type) where
  | ViewMut (v : A)
  | Owned (a : A)
  | ToBeCloned (v : A) (o : A)
deriving Repr

namespace ArrayOut

/-- `ArrayOut::view`: the buffer the kernel's result is read from — for
`ToBeCloned` this is the shadow buffer, never the caller view. -/
def view {A : Type} : ArrayOut A → A
  | ViewMut v => v
  | Owned a => a
  | ToBeCloned _ o => o

/-- `ArrayOut::view_mut`: the buffer the kernel writes into — for
`ToBeCloned` this is the shadow buffer, never the caller view. -/
def view_mut {A : Type} : ArrayOut A → A
  | ViewMut v => v
  | Owned a => a
  | ToBeCloned _ o => o

/-- `ArrayOut::is_view_mut`. -/
def is_view_mut {A : Type} : ArrayOut A → Bool
  | ViewMut _ => true
  | Owned _ => false
  | ToBeCloned _ _ => true

/-- `ArrayOut::is_owned`. -/
def is_owned {A : Type} : ArrayOut A → Bool
  | ViewMut _ => false
  | Owned _ => true
  | ToBeCloned _ _ => false

/-- The effect of `x.view_mut().mapv_inplace(f)` and of the kernel's write
through the extracted mutable pointer: transform the active buffer in
place. -/
def mapActive {A : Type} (f : A → A) : ArrayOut A → ArrayOut A
  | ViewMut v => ViewMut (f v)
  | Owned a => Owned (f a)
  | ToBeCloned v o => ToBeCloned v (f o)

/-- `ArrayOut::clone_to_view_mut` (finalize aliasing): for `ToBeCloned`,
assign the shadow buffer into the caller view and downgrade to `ViewMut`;
identity on the other states. -/
def clone_to_view_mut {F : Type} : ArrayOut (MatView F) → ArrayOut (MatView F)
  | ToBeCloned v o => ViewMut (MatView.assign v o)
  | s => s

/-- `ArrayOut::into_owned`.  The returned pair is `(returned buffer, caller
memory after the call)`: Rust's `arr_view.assign(&arr_owned)` mutates the
caller's memory through the view, which a pure embedding must return
explicitly (`none` when the container holds no caller view). -/
def into_owned {F : Type} : ArrayOut (MatView F) → MatView F × Option (MatView F)
  | ViewMut v => (v, some v)
  | Owned a => (a, none)
  | ToBeCloned v o => (o, some (MatView.assign v o))

/-- `ArrayOut::reversed_axes`: swap the two logical dimensions; for
`ToBeCloned`, perform the pending assign-back first and downgrade to
`ViewMut`. -/
def reversed_axes {F : Type} : ArrayOut (MatView F) → ArrayOut (MatView F)
  | ViewMut v => ViewMut v.t
  | Owned a => Owned a.t
  | ToBeCloned v o => ViewMut (MatView.assign v o).t

end ArrayOut

/- ## The transpose flip rules (src/util/util_ndarray.rs) -/

/-- `flip_trans_fpref`: adapt `(trans, view)` to a column-major-preferred
target.  `conj` is `F::conj`; `view_t` is the transposed view the caller
passes alongside `view`. -/
def flip_trans_fpref {F : Type} (conj : F → F) (trans : BLASTranspose)
    (view view_t : MatView F) (hermi : Bool) :
    Except BLASError (BLASTranspose × MatView F) :=
  match (get_layout_array2 view).is_fpref, trans with
  | true, _ => Except.ok (trans, view_t.std)
  | false, BLASTranspose.NoTrans =>
    Except.ok (trans.flip hermi,
      match hermi with
      | false => view.std
      | true => view.mapvConj conj)
  | false, BLASTranspose.Trans => Except.ok (trans.flip hermi, view.std)
  | false, BLASTranspose.ConjTrans => Except.ok (trans.flip hermi, view.mapvConj conj)
  | false, _ => Except.error BLASError.invalidTrans

/-- `flip_trans_cpref`: adapt `(trans, view)` to a row-major-preferred
target; mirror image of `flip_trans_fpref`. -/
def flip_trans_cpref {F : Type} (conj : F → F) (trans : BLASTranspose)
    (view view_t : MatView F) (hermi : Bool) :
    Except BLASError (BLASTranspose × MatView F) :=
  match (get_layout_array2 view).is_cpref, trans with
  | true, _ => Except.ok (trans, view.std)
  | false, BLASTranspose.NoTrans =>
    Except.ok (trans.flip hermi,
      match hermi with
      | false => view_t.std
      | true => view_t.mapvConj conj)
  | false, BLASTranspose.Trans => Except.ok (trans.flip hermi, view_t.std)
  | false, BLASTranspose.ConjTrans => Except.ok (trans.flip hermi, view_t.mapvConj conj)
  | false, _ => Except.error BLASError.invalidTrans

/- ## TPSV: packed triangular solve (src/blas2/tpsv.rs) -/

/-- The built `TPSV_` parameter struct (after `self.build()?`). -/
structure TPSV_args (F : Type) where
  ap : VecView F
  x : VecView F
  uplo : BLASUpLo
  trans : BLASTranspose
  diag : BLASDiag
  layout : Option BLASLayout

/-- The resolved `TPSV_Driver` call descriptor. -/
structure TPSV_Driver (F : Type) where
  uplo : BLASUpLo
  trans : BLASTranspose
  diag : BLASDiag
  n : Int
  ap : VecView F
  x : ArrayOut (VecView F)
  incx : Int

/-- The native `?tpsv` kernel, treated as a black box: any function from the
call arguments and the contents of `x` to the new contents of `x`. -/
def TpsvKernel (F : Type) : Type :=
  BLASUpLo → BLASTranspose → BLASDiag → Int → VecView F → VecView F → Int → VecView F

/-- `TPSV_::driver`: validate and resolve the call descriptor.  The
`assert!(incap <= 1)` panic is modelled as `panicErr`. -/
def TPSV_driver {F : Type} (s : TPSV_args F) : Except BLASError (TPSV_Driver F) :=
  if s.ap.stride > 1 then Except.error BLASError.panicErr
  else if s.ap.len ≠ s.x.len * (s.x.len + 1) / 2 then Except.error BLASError.incompatibleDims
  else
    match tryIntoCNat s.x.len with
    | Except.error e => Except.error e
    | Except.ok nI =>
      match tryIntoCInt s.x.stride with
      | Except.error e => Except.error e
      | Except.ok incxI =>
        Except.ok ⟨s.uplo, s.trans, s.diag, nI, s.ap, ArrayOut.ViewMut s.x, incxI⟩

/-- `TPSV_Driver::run_blas`: extract the mutable pointer (panicking unless
the output is `ViewMut`), short-circuit on `n == 0`, otherwise invoke the
kernel. -/
def TPSV_run_blas {F : Type} (kernel : TpsvKernel F) (d : TPSV_Driver F) :
    Except BLASError (ArrayOut (VecView F)) :=
  match d.x with
  | ArrayOut.ViewMut y =>
    if d.n = 0 then Except.ok (ArrayOut.ViewMut y)
    else Except.ok (ArrayOut.ViewMut (kernel d.uplo d.trans d.diag d.n d.ap y d.incx))
  | _ => Except.error BLASError.panicErr

/-- The `match obj.uplo { Upper => Lower, Lower => Upper, _ => blas_invalid! }`
arms of `TPSV_Builder::run`. -/
def flipUploChecked : BLASUpLo → Except BLASError BLASUpLo
  | BLASUpLo.Upper => Except.ok BLASUpLo.Lower
  | BLASUpLo.Lower => Except.ok BLASUpLo.Upper
  | _ => Except.error BLASError.invalidUpLo

/-- `TPSV_Builder::run` (the public wrapper): elect the layout (defaulting to
row-major), standardize the packed operand, and on the row-major path flip
the triangle and swap no-transpose/transpose, conjugating `x` around the call
in the conjugate-transpose case. -/
def TPSV_run {F : Type} (kernel : TpsvKernel F) (conj : F → F) (s : TPSV_args F) :
    Except BLASError (ArrayOut (VecView F)) :=
  if (match s.layout with
      | some l => l
      | none => BLASLayout.RowMajor) = BLASLayout.ColMajor then
    match TPSV_driver ⟨s.ap.std, s.x, s.uplo, s.trans, s.diag, some BLASLayout.ColMajor⟩ with
    | Except.error e => Except.error e
    | Except.ok d => TPSV_run_blas kernel d
  else
    match s.trans with
    | BLASTranspose.NoTrans =>
      match flipUploChecked s.uplo with
      | Except.error e => Except.error e
      | Except.ok uplo' =>
        match TPSV_driver ⟨s.ap.std, s.x, uplo', BLASTranspose.Trans, s.diag, some BLASLayout.ColMajor⟩ with
        | Except.error e => Except.error e
        | Except.ok d => TPSV_run_blas kernel d
    | BLASTranspose.Trans =>
      match flipUploChecked s.uplo with
      | Except.error e => Except.error e
      | Except.ok uplo' =>
        match TPSV_driver ⟨s.ap.std, s.x, uplo', BLASTranspose.NoTrans, s.diag, some BLASLayout.ColMajor⟩ with
        | Except.error e => Except.error e
        | Except.ok d => TPSV_run_blas kernel d
    | BLASTranspose.ConjTrans =>
      match flipUploChecked s.uplo with
      | Except.error e => Except.error e
      | Except.ok uplo' =>
        match TPSV_driver ⟨s.ap.std, s.x.mapConj conj, uplo', BLASTranspose.NoTrans, s.diag, some BLASLayout.ColMajor⟩ with
        | Except.error e => Except.error e
        | Except.ok d =>
          match TPSV_run_blas kernel d with
          | Except.error e => Except.error e
          | Except.ok out => Except.ok (out.mapActive (VecView.mapConj conj))
    | _ => Except.error BLASError.invalidTrans

/- ## SYRK / HERK: symmetric/Hermitian rank-k update (src/blas3/syrk.rs) -/

/-- The built `SYRK_` parameter struct.  `R` is `S::HermitianFloat`, the
scalar type of `alpha`/`beta`. -/
structure SYRK_args (F R : Type) where
  a : MatView F
  c : Option (MatView F)
  alpha : R
  beta : R
  uplo : BLASUpLo
  trans : BLASTranspose
  layout : Option BLASLayout

/-- The resolved `SYRK_Driver` call descriptor. -/
structure SYRK_Driver (F R : Type) where
  uplo : BLASUpLo
  trans : BLASTranspose
  n : Int
  k : Int
  alpha : R
  a : MatView F
  lda : Int
  beta : R
  c : ArrayOut (MatView F)
  ldc : Int

/-- The native `?syrk`/`?herk` kernel, treated as a black box: any function
from the call arguments and the contents of the active `C` buffer to its new
contents. -/
def SyrkKernel (F R : Type) : Type :=
  BLASUpLo → BLASTranspose → Int → Int → R → MatView F → Int → R → MatView F → Int → MatView F

/-- The transpose-validity check appearing verbatim in both
`SYRK_Builder::run` and `SYRK_::driver`: symmetric kernels accept
no-transpose/transpose/conjugate-transpose for real `F` and
no-transpose/transpose for complex `F`; Hermitian kernels accept
no-transpose/conjugate-transpose. -/
def syrkTransCheck (isComplex hermi : Bool) (t : BLASTranspose) : Except BLASError Unit :=
  match isComplex with
  | false =>
    match t with
    | BLASTranspose.NoTrans => Except.ok ()
    | BLASTranspose.Trans => Except.ok ()
    | BLASTranspose.ConjTrans => Except.ok ()
    | _ => Except.error BLASError.invalidTrans
  | true =>
    match hermi with
    | false =>
      match t with
      | BLASTranspose.NoTrans => Except.ok ()
      | BLASTranspose.Trans => Except.ok ()
      | _ => Except.error BLASError.invalidTrans
    | true =>
      match t with
      | BLASTranspose.NoTrans => Except.ok ()
      | BLASTranspose.ConjTrans => Except.ok ()
      | _ => Except.error BLASError.invalidTrans

/-- The `(n, k)` initialization of `SYRK_::driver`: rows of `A` give `n` for
no-transpose, columns give `n` for the transposed selectors; other selectors
are invalid. -/
def syrkDims {F : Type} (trans : BLASTranspose) (a : MatView F) :
    Except BLASError (Nat × Nat) :=
  match trans with
  | BLASTranspose.NoTrans => Except.ok (a.d0, a.d1)
  | BLASTranspose.Trans => Except.ok (a.d1, a.d0)
  | BLASTranspose.ConjTrans => Except.ok (a.d1, a.d0)
  | _ => Except.error BLASError.invalidTrans

/-- The `// optional intent(out)` block of `SYRK_::driver`: check the
caller's `C` against `(n, n)`, wrap a Fortran-preferred view directly, build
a `ToBeCloned` shadow pair (`c_buffer = c.t().as_standard_layout()
.into_owned().reversed_axes()`) for any other layout, or allocate a fresh
f-order zero buffer when no `C` was supplied. -/
def syrkPrepareC {F : Type} (copt : Option (MatView F)) (n : Nat) (z : F) :
    Except BLASError (ArrayOut (MatView F)) :=
  match copt with
  | some cv =>
    if cv.d0 = n ∧ cv.d1 = n then
      if (get_layout_array2 cv).is_fpref then Except.ok (ArrayOut.ViewMut cv)
      else Except.ok (ArrayOut.ToBeCloned cv cv.t.std.t)
    else Except.error BLASError.invalidDim
  | none => Except.ok (ArrayOut.Owned (MatView.zerosF z n))

/-- `SYRK_::driver`: assert the inner-wrapper preconditions (column-major
layout and Fortran-preferred `A`), derive `(n, k)` from the transpose flag,
validate the flag, check or allocate `C` (building a `ToBeCloned` shadow pair
when the caller's `C` is not Fortran-preferred), and narrow the integers.
`z` is the scalar zero used by `Array2::zeros`. -/
def SYRK_driver {F R : Type} (isComplex hermi : Bool) (z : F) (s : SYRK_args F R) :
    Except BLASError (SYRK_Driver F R) :=
  if s.layout ≠ some BLASLayout.ColMajor then Except.error BLASError.panicErr
  else if ¬ (get_layout_array2 s.a).is_fpref then Except.error BLASError.panicErr
  else
    match syrkDims s.trans s.a with
    | Except.error e => Except.error e
    | Except.ok nk =>
      match syrkTransCheck isComplex hermi s.trans with
      | Except.error e => Except.error e
      | Except.ok _ =>
        match syrkPrepareC s.c nk.1 z with
        | Except.error e => Except.error e
        | Except.ok c =>
          match tryIntoCNat nk.1 with
          | Except.error e => Except.error e
          | Except.ok nI =>
            match tryIntoCNat nk.2 with
            | Except.error e => Except.error e
            | Except.ok kI =>
              match tryIntoCInt s.a.s1 with
              | Except.error e => Except.error e
              | Except.ok ldaI =>
                match tryIntoCInt c.view.s1 with
                | Except.error e => Except.error e
                | Except.ok ldcI =>
                  Except.ok ⟨s.uplo, s.trans, nI, kI, s.alpha, s.a, ldaI, s.beta, c, ldcI⟩

/-- `SYRK_Driver::run_blas`: short-circuit when `n == 0 || k == 0`
(finalizing aliasing), otherwise invoke the kernel on the active `C` buffer
and finalize aliasing. -/
def SYRK_run_blas {F R : Type} (kernel : SyrkKernel F R) (d : SYRK_Driver F R) :
    Except BLASError (ArrayOut (MatView F)) :=
  if d.n = 0 ∨ d.k = 0 then Except.ok d.c.clone_to_view_mut
  else
    Except.ok ((d.c.mapActive
      (fun cb => kernel d.uplo d.trans d.n d.k d.alpha d.a d.lda d.beta cb d.ldc)).clone_to_view_mut)

/-- `SYRK_Builder::run` (the public wrapper): validate the transpose flag,
elect the global layout, and dispatch — on the column-major path through
`flip_trans_fpref`, on the row-major path through `flip_trans_cpref` with
the triangle flipped, the transpose flipped once more, `C` transposed going
in and the result transposed coming back. -/
def SYRK_run {F R : Type} (kernel : SyrkKernel F R) (conj : F → F)
    (isComplex hermi : Bool) (z : F) (s : SYRK_args F R) :
    Except BLASError (ArrayOut (MatView F)) :=
  match syrkTransCheck isComplex hermi s.trans with
  | Except.error e => Except.error e
  | Except.ok _ =>
    if get_layout_row_preferred [s.layout, s.c.map (fun cv => get_layout_array2 cv)]
        [get_layout_array2 s.a] = BLASLayout.ColMajor then
      match flip_trans_fpref conj s.trans s.a s.a.t hermi with
      | Except.error e => Except.error e
      | Except.ok fl =>
        match SYRK_driver isComplex hermi z
          ⟨fl.2.t, s.c, s.alpha, s.beta, s.uplo, fl.1, some BLASLayout.ColMajor⟩ with
        | Except.error e => Except.error e
        | Except.ok d => SYRK_run_blas kernel d
    else if get_layout_row_preferred [s.layout, s.c.map (fun cv => get_layout_array2 cv)]
        [get_layout_array2 s.a] = BLASLayout.RowMajor then
      match flip_trans_cpref conj s.trans s.a s.a.t hermi with
      | Except.error e => Except.error e
      | Except.ok fl =>
        match SYRK_driver isComplex hermi z
          ⟨fl.2.t, s.c.map (fun cv => cv.t), s.alpha, s.beta, s.uplo.flip,
            fl.1.flip hermi, some BLASLayout.ColMajor⟩ with
        | Except.error e => Except.error e
        | Except.ok d =>
          match SYRK_run_blas kernel d with
          | Except.error e => Except.error e
          | Except.ok out => Except.ok out.reversed_axes
    else Except.error BLASError.panicErr

/-- Restatement of the classification rules in the claim's own words, used
only to compare against the embedded `get_layout_array2`. -/
def layoutClassifySpec (d0 d1 : Nat) (s0 s1 : Int) : BLASLayout :=
  if d0 = 0 ∨ d1 = 0 then BLASLayout.Sequential
  else if d0 = 1 ∧ d1 = 1 then BLASLayout.Sequential
  else if s1 = 1 then BLASLayout.RowMajor
  else if s0 = 1 then BLASLayout.ColMajor
  else BLASLayout.NonContiguous

/-- The set of transpose selectors the claim allows per operation family:
symmetric updates over real types accept all three, symmetric updates over
complex types accept no-transpose/transpose, Hermitian updates accept
no-transpose/conjugate-transpose.  Stated from the claim's words, to be
compared against the dispatch behaviour. -/
def syrkAllowedSpec (isComplex hermi : Bool) (t : BLASTranspose) : Bool :=
  match isComplex, hermi, t with
  | false, _, BLASTranspose.NoTrans => true
  | false, _, BLASTranspose.Trans => true
  | false, _, BLASTranspose.ConjTrans => true
  | true, false, BLASTranspose.NoTrans => true
  | true, false, BLASTranspose.Trans => true
  | true, true, BLASTranspose.NoTrans => true
  | true, true, BLASTranspose.ConjTrans => true
  | _, _, _ => false

/-- C2: the layout classifier follows exactly the claimed ordered rules —
degenerate shapes to `Sequential`, then `s1 = 1` to `RowMajor`, then
`s0 = 1` to `ColMajor`, else `NonContiguous` — and its result depends only on
shape and strides, never on the element values. -/
theorem get_layout_array2_spec {F : Type} (arr : MatView F) :
    get_layout_array2 arr = layoutClassifySpec arr.d0 arr.d1 arr.s0 arr.s1 ∧
    ∀ g : Nat → Nat → F,
      get_layout_array2 ⟨arr.d0, arr.d1, arr.s0, arr.s1, g⟩ = get_layout_array2 arr := by
  refine ⟨rfl, fun g => rfl⟩

/-- C1: for the packed triangular solve, dispatching under the elected
row-major layout with selector (upper, no-transpose) produces exactly the
same result as dispatching the column-major path with selector (lower,
transpose), for every kernel, every packed operand and every right-hand
side — the packed row-major upper data is the packed column-major lower data
of the explicitly transposed matrix, so both paths hand the kernel identical
arguments; and in general the row-major dispatch flips upper/lower and swaps
no-transpose/transpose relative to the column-major dispatch, the two paths
computing the same result in all four selector combinations. -/
theorem tpsv_flip_equivalence {F : Type} (kernel : TpsvKernel F) (conj : F → F)
    (ap x : VecView F) (diag : BLASDiag) :
    (TPSV_run kernel conj ⟨ap, x, BLASUpLo.Upper, BLASTranspose.NoTrans, diag, some BLASLayout.RowMajor⟩
      = TPSV_run kernel conj ⟨ap, x, BLASUpLo.Lower, BLASTranspose.Trans, diag, some BLASLayout.ColMajor⟩) ∧
    (TPSV_run kernel conj ⟨ap, x, BLASUpLo.Lower, BLASTranspose.NoTrans, diag, some BLASLayout.RowMajor⟩
      = TPSV_run kernel conj ⟨ap, x, BLASUpLo.Upper, BLASTranspose.Trans, diag, some BLASLayout.ColMajor⟩) ∧
    (TPSV_run kernel conj ⟨ap, x, BLASUpLo.Upper, BLASTranspose.Trans, diag, some BLASLayout.RowMajor⟩
      = TPSV_run kernel conj ⟨ap, x, BLASUpLo.Lower, BLASTranspose.NoTrans, diag, some BLASLayout.ColMajor⟩) ∧
    (TPSV_run kernel conj ⟨ap, x, BLASUpLo.Lower, BLASTranspose.Trans, diag, some BLASLayout.RowMajor⟩
      = TPSV_run kernel conj ⟨ap, x, BLASUpLo.Upper, BLASTranspose.NoTrans, diag, some BLASLayout.ColMajor⟩) :=
  ⟨rfl, rfl, rfl, rfl⟩

/-- C3: on a `ToBeCloned` (shadow-copy) container, `clone_to_view_mut`
(finalize aliasing), `into_owned` and `reversed_axes` all assign the shadow
buffer into the caller's view first, so the caller's view afterwards holds
exactly the values the shadow buffer held before; `clone_to_view_mut`
downgrades to `ViewMut` and is the identity on the other two states;
`into_owned` returns the owned buffer after the assign-back. -/
theorem arrayout_shadow_ops {F : Type} (v o w a : MatView F) :
    ArrayOut.clone_to_view_mut (ArrayOut.ToBeCloned v o) = ArrayOut.ViewMut (MatView.assign v o) ∧
    (∀ i j : Nat, (MatView.assign v o).get i j = o.get i j) ∧
    ArrayOut.clone_to_view_mut (ArrayOut.ViewMut w) = ArrayOut.ViewMut w ∧
    ArrayOut.clone_to_view_mut (ArrayOut.Owned a) = ArrayOut.Owned a ∧
    ArrayOut.into_owned (ArrayOut.ToBeCloned v o) = (o, some (MatView.assign v o)) ∧
    ArrayOut.reversed_axes (ArrayOut.ToBeCloned v o)
      = ArrayOut.ViewMut (MatView.t (MatView.assign v o)) :=
  ⟨rfl, fun _ _ => rfl, rfl, rfl, rfl, rfl⟩

/-- C4 counterexample: the claim says a conjugate-transpose request over a
real element type is rejected as illegal; but on a non-column-major-preferred
real operand (`F = Int`, conjugation is the identity), `flip_trans_fpref`
accepts conjugate-transpose and returns no-transpose of the conjugated
(= unchanged) operand instead of an error. -/
theorem flip_trans_real_conjtrans_accepted :
    flip_trans_fpref (fun x : Int => x) BLASTranspose.ConjTrans
        ⟨2, 2, 2, 2, fun _ _ => 0⟩ (MatView.t ⟨2, 2, 2, 2, fun _ _ => 0⟩) false
      = Except.ok (BLASTranspose.NoTrans,
          MatView.mapvConj (fun x : Int => x) ⟨2, 2, 2, 2, fun _ _ => 0⟩) :=
  rfl

/-- C4 (amended): when the operand is not column-major-preferred and the
target is column-major (`flip_trans_fpref`), the symmetric (non-Hermitian)
rule maps no-transpose to transpose of the standardized operand with values
unchanged, transpose to no-transpose, and conjugate-transpose to no-transpose
with every element conjugated — for all element types (for real types
conjugation is the identity and the request is accepted, not rejected); under
the Hermitian flag no-transpose maps to conjugate-transpose with conjugated
values; only selectors outside no-transpose/transpose/conjugate-transpose
are rejected.  The row-major-target rule (`flip_trans_cpref`) is the mirror
image acting through the transposed view, and standardization preserves
element values while `mapvConj` conjugates them. -/
theorem flip_trans_rules {F : Type} (conj : F → F) (view view_t : MatView F) :
    ((get_layout_array2 view).is_fpref = false →
      (flip_trans_fpref conj BLASTranspose.NoTrans view view_t false
          = Except.ok (BLASTranspose.Trans, view.std) ∧
       flip_trans_fpref conj BLASTranspose.Trans view view_t false
          = Except.ok (BLASTranspose.NoTrans, view.std) ∧
       flip_trans_fpref conj BLASTranspose.ConjTrans view view_t false
          = Except.ok (BLASTranspose.NoTrans, view.mapvConj conj) ∧
       flip_trans_fpref conj BLASTranspose.NoTrans view view_t true
          = Except.ok (BLASTranspose.ConjTrans, view.mapvConj conj) ∧
       flip_trans_fpref conj BLASTranspose.Trans view view_t true
          = Except.ok (BLASTranspose.NoTrans, view.std) ∧
       flip_trans_fpref conj BLASTranspose.ConjTrans view view_t true
          = Except.ok (BLASTranspose.NoTrans, view.mapvConj conj) ∧
       flip_trans_fpref conj BLASTranspose.ConjNoTrans view view_t false
          = Except.error BLASError.invalidTrans)) ∧
    ((get_layout_array2 view).is_cpref = false →
      (flip_trans_cpref conj BLASTranspose.NoTrans view view_t false
          = Except.ok (BLASTranspose.Trans, view_t.std) ∧
       flip_trans_cpref conj BLASTranspose.Trans view view_t false
          = Except.ok (BLASTranspose.NoTrans, view_t.std) ∧
       flip_trans_cpref conj BLASTranspose.ConjTrans view view_t false
          = Except.ok (BLASTranspose.NoTrans, view_t.mapvConj conj) ∧
       flip_trans_cpref conj BLASTranspose.NoTrans view view_t true
          = Except.ok (BLASTranspose.ConjTrans, view_t.mapvConj conj) ∧
       flip_trans_cpref conj BLASTranspose.Trans view view_t true
          = Except.ok (BLASTranspose.NoTrans, view_t.std) ∧
       flip_trans_cpref conj BLASTranspose.ConjTrans view view_t true
          = Except.ok (BLASTranspose.NoTrans, view_t.mapvConj conj) ∧
       flip_trans_cpref conj BLASTranspose.ConjNoTrans view view_t false
          = Except.error BLASError.invalidTrans)) ∧
    (∀ i j : Nat, (MatView.std view).get i j = view.get i j) ∧
    (∀ i j : Nat, (MatView.mapvConj conj view).get i j = conj (view.get i j)) := by
  refine ⟨?_, ?_, fun _ _ => rfl, fun _ _ => rfl⟩
  · intro hf
    unfold flip_trans_fpref
    rw [hf]
    exact ⟨rfl, rfl, rfl, rfl, rfl, rfl, rfl⟩
  · intro hc
    unfold flip_trans_cpref
    rw [hc]
    exact ⟨rfl, rfl, rfl, rfl, rfl, rfl, rfl⟩

/-- C4 witness: the amended rules applied to a concrete non-contiguous
integer operand (which is neither column- nor row-major-preferred). -/
theorem flip_trans_rules_witness :
    flip_trans_fpref (fun x : Int => x) BLASTranspose.NoTrans
        ⟨2, 2, 2, 2, fun _ _ => 0⟩ (MatView.t ⟨2, 2, 2, 2, fun _ _ => 0⟩) false
      = Except.ok (BLASTranspose.Trans, MatView.std ⟨2, 2, 2, 2, fun _ _ => 0⟩) :=
  ((flip_trans_rules (fun x : Int => x) ⟨2, 2, 2, 2, fun _ _ => 0⟩
      (MatView.t ⟨2, 2, 2, 2, fun _ _ => 0⟩)).1 rfl).1

/-- C10: whenever the packed-solve parameter builder succeeds, the output
container handed to the driver is in the `ViewMut` (borrowed-mutable) state —
the solution is written in place into the caller's `x` — so the driver's
panic branch for the `Owned` and `ToBeCloned` states is unreachable. -/
theorem tpsv_driver_output_always_view_mut {F : Type} (kernel : TpsvKernel F)
    (s : TPSV_args F) (d : TPSV_Driver F) (h : TPSV_driver s = Except.ok d) :
    d.x = ArrayOut.ViewMut s.x ∧
    TPSV_run_blas kernel d ≠ Except.error BLASError.panicErr := by
  unfold TPSV_driver at h
  split at h
  · cases h
  · split at h
    · cases h
    · split at h
      · cases h
      · split at h
        · cases h
        · cases h
          refine ⟨rfl, ?_⟩
          unfold TPSV_run_blas
          split
          · split <;> simp
          · split <;> simp

/-- C10 witness: a concrete successful build (empty solve over `Int`) whose
driver output is `ViewMut` and whose `run_blas` does not panic. -/
theorem tpsv_driver_output_always_view_mut_witness :
    (⟨BLASUpLo.Upper, BLASTranspose.NoTrans, BLASDiag.NonUnit, 0, ⟨0, 1, fun _ => (0 : Int)⟩,
        ArrayOut.ViewMut ⟨0, 1, fun _ => (0 : Int)⟩, 1⟩ : TPSV_Driver Int).x
      = ArrayOut.ViewMut ⟨0, 1, fun _ => (0 : Int)⟩ ∧
    TPSV_run_blas (fun _ _ _ _ _ xv _ => xv)
      ⟨BLASUpLo.Upper, BLASTranspose.NoTrans, BLASDiag.NonUnit, 0, ⟨0, 1, fun _ => (0 : Int)⟩,
        ArrayOut.ViewMut ⟨0, 1, fun _ => (0 : Int)⟩, 1⟩ ≠ Except.error BLASError.panicErr :=
  tpsv_driver_output_always_view_mut (fun _ _ _ _ _ xv _ => xv)
    ⟨⟨0, 1, fun _ => 0⟩, ⟨0, 1, fun _ => 0⟩, BLASUpLo.Upper, BLASTranspose.NoTrans,
      BLASDiag.NonUnit, none⟩
    ⟨BLASUpLo.Upper, BLASTranspose.NoTrans, BLASDiag.NonUnit, 0, ⟨0, 1, fun _ => (0 : Int)⟩,
      ArrayOut.ViewMut ⟨0, 1, fun _ => (0 : Int)⟩, 1⟩ (by rfl)

/-- C6: with a zero governing dimension (`n` for the packed solve, `n` or
`k` for the rank-k update), the drivers return the output container
unchanged — finalizing shadow aliasing for the rank-k update — and the
result does not depend on the kernel at all: no native call is made. -/
theorem zero_dim_short_circuit {F R : Type} (tk tk' : TpsvKernel F)
    (sk sk' : SyrkKernel F R) (d : TPSV_Driver F) (e : SYRK_Driver F R)
    (y : VecView F) (hx : d.x = ArrayOut.ViewMut y) (hn : d.n = 0)
    (he : e.n = 0 ∨ e.k = 0) :
    TPSV_run_blas tk d = Except.ok d.x ∧
    TPSV_run_blas tk d = TPSV_run_blas tk' d ∧
    SYRK_run_blas sk e = Except.ok e.c.clone_to_view_mut ∧
    SYRK_run_blas sk e = SYRK_run_blas sk' e := by
  refine ⟨?_, ?_, ?_, ?_⟩ <;> simp [TPSV_run_blas, SYRK_run_blas, hx, hn, he]

/-- C6 witness: a concrete empty solve and empty rank-k update over `Int`,
with two kernels that would write different values if they were called. -/
theorem zero_dim_short_circuit_witness :
    TPSV_run_blas (fun _ _ _ _ _ xv _ => xv)
        (⟨BLASUpLo.Upper, BLASTranspose.NoTrans, BLASDiag.NonUnit, 0,
          ⟨0, 1, fun _ => (0 : Int)⟩, ArrayOut.ViewMut ⟨0, 1, fun _ => (0 : Int)⟩, 1⟩ :
          TPSV_Driver Int)
      = Except.ok (ArrayOut.ViewMut ⟨0, 1, fun _ => (0 : Int)⟩) ∧
    SYRK_run_blas (fun _ _ _ _ _ _ _ _ cb _ => cb)
        (⟨BLASUpLo.Upper, BLASTranspose.NoTrans, 0, 0, (1 : Int),
          ⟨0, 0, 1, 1, fun _ _ => (0 : Int)⟩, 1, 1,
          ArrayOut.Owned ⟨0, 0, 1, 1, fun _ _ => 0⟩, 1⟩ : SYRK_Driver Int Int)
      = Except.ok (ArrayOut.Owned ⟨0, 0, 1, 1, fun _ _ => 0⟩) := by
  have h := zero_dim_short_circuit (F := Int) (R := Int)
    (fun _ _ _ _ _ xv _ => xv) (fun u t dg n ap xv i => ap)
    (fun _ _ _ _ _ _ _ _ cb _ => cb) (fun u t n k al a l b cb l2 => a)
    (⟨BLASUpLo.Upper, BLASTranspose.NoTrans, BLASDiag.NonUnit, 0,
      ⟨0, 1, fun _ => (0 : Int)⟩, ArrayOut.ViewMut ⟨0, 1, fun _ => (0 : Int)⟩, 1⟩ :
      TPSV_Driver Int)
    (⟨BLASUpLo.Upper, BLASTranspose.NoTrans, 0, 0, (1 : Int),
      ⟨0, 0, 1, 1, fun _ _ => (0 : Int)⟩, 1, 1,
      ArrayOut.Owned ⟨0, 0, 1, 1, fun _ _ => 0⟩, 1⟩ : SYRK_Driver Int Int)
    ⟨0, 1, fun _ => (0 : Int)⟩ rfl rfl (Or.inl rfl)
  exact ⟨h.1, h.2.2.1⟩

/-- `tryIntoCNat` either succeeds on a fitting value or fails with
`overflow` on a value exceeding the 32-bit signed range. -/
theorem tryIntoCNat_cases (n : Nat) :
    (n ≤ 2 ^ 31 - 1 ∧ tryIntoCNat n = Except.ok (n : Int)) ∨
    (2 ^ 31 - 1 < n ∧ tryIntoCNat n = Except.error BLASError.overflow) := by
  unfold tryIntoCNat
  by_cases h : n ≤ 2 ^ 31 - 1
  · exact Or.inl ⟨h, by rw [if_pos h]⟩
  · exact Or.inr ⟨by omega, by rw [if_neg h]⟩

/-- `tryIntoCInt` either succeeds on a fitting value or fails with
`overflow` on a value outside the 32-bit signed range. -/
theorem tryIntoCInt_cases (i : Int) :
    ((-(2 ^ 31) ≤ i ∧ i ≤ 2 ^ 31 - 1) ∧ tryIntoCInt i = Except.ok i) ∨
    (¬(-(2 ^ 31) ≤ i ∧ i ≤ 2 ^ 31 - 1) ∧ tryIntoCInt i = Except.error BLASError.overflow) := by
  unfold tryIntoCInt
  by_cases h : -(2 ^ 31) ≤ i ∧ i ≤ 2 ^ 31 - 1
  · exact Or.inl ⟨h, by rw [if_pos h]⟩
  · exact Or.inr ⟨h, by rw [if_neg h]⟩

/-- C7: the parameter builders validate shape compatibility and fail with an
incompatible-dimensions error before any native call (the builders never
invoke a kernel; only a successfully built descriptor reaches `run_blas`):
the packed solve requires `len(ap) = n (n + 1) / 2` for the vector length
`n`, and the rank-k update requires the supplied `C` to be square of size
`n`, where `n` comes from the transpose flag via `syrkDims` (rows of `A` for
no-transpose, columns otherwise). -/
theorem dim_validation_errors {F R : Type} (isComplex hermi : Bool) (z : F)
    (s : TPSV_args F) (t : SYRK_args F R) (cv : MatView F) (nk : Nat × Nat)
    (hs1 : ¬ s.ap.stride > 1)
    (hs2 : s.ap.len ≠ s.x.len * (s.x.len + 1) / 2)
    (ht1 : t.layout = some BLASLayout.ColMajor)
    (ht2 : (get_layout_array2 t.a).is_fpref = true)
    (ht3 : syrkDims t.trans t.a = Except.ok nk)
    (ht4 : syrkTransCheck isComplex hermi t.trans = Except.ok ())
    (ht5 : t.c = some cv)
    (ht6 : ¬(cv.d0 = nk.1 ∧ cv.d1 = nk.1)) :
    TPSV_driver s = Except.error BLASError.incompatibleDims ∧
    SYRK_driver isComplex hermi z t = Except.error BLASError.invalidDim := by
  constructor
  · unfold TPSV_driver
    rw [if_neg hs1, if_pos hs2]
  · simp [SYRK_driver, syrkPrepareC, ht1, ht2, ht3, ht4, ht5, ht6]

/-- C7 witness: a packed operand of length 2 against a vector of length 3
(expecting 6), and a 1×2 `C` against a 2×2-expecting rank-k update, both
rejected. -/
theorem dim_validation_errors_witness :
    TPSV_driver (⟨⟨2, 1, fun _ => (0 : Int)⟩, ⟨3, 1, fun _ => 0⟩, BLASUpLo.Upper,
        BLASTranspose.NoTrans, BLASDiag.NonUnit, none⟩ : TPSV_args Int)
      = Except.error BLASError.incompatibleDims ∧
    SYRK_driver false false (0 : Int)
        (⟨⟨2, 2, 1, 2, fun _ _ => (0 : Int)⟩, some ⟨1, 2, 2, 1, fun _ _ => 0⟩, (1 : Int), 0,
          BLASUpLo.Upper, BLASTranspose.NoTrans, some BLASLayout.ColMajor⟩ : SYRK_args Int Int)
      = Except.error BLASError.invalidDim :=
  dim_validation_errors false false 0
    ⟨⟨2, 1, fun _ => 0⟩, ⟨3, 1, fun _ => 0⟩, BLASUpLo.Upper, BLASTranspose.NoTrans,
      BLASDiag.NonUnit, none⟩
    ⟨⟨2, 2, 1, 2, fun _ _ => 0⟩, some ⟨1, 2, 2, 1, fun _ _ => 0⟩, 1, 0, BLASUpLo.Upper,
      BLASTranspose.NoTrans, some BLASLayout.ColMajor⟩
    ⟨1, 2, 2, 1, fun _ _ => 0⟩ ⟨2, 2⟩
    (by decide) (by decide) rfl rfl rfl rfl rfl (by decide)

/-- C8: a dimension, stride, or leading-dimension value that does not fit the
native kernel's 32-bit signed integer width makes the builder fail with an
overflow error (before any native call — the builders never invoke a
kernel), rather than silently truncating: for the packed solve this covers
`n` and `incx`; for the rank-k update `n`, `k`, `lda` and `ldc`. -/
theorem integer_overflow_errors {F R : Type} (isComplex hermi : Bool) (z : F)
    (s : TPSV_args F) (t : SYRK_args F R) (cv : MatView F) (nk : Nat × Nat)
    (hs1 : ¬ s.ap.stride > 1)
    (hs2 : s.ap.len = s.x.len * (s.x.len + 1) / 2)
    (hso : 2 ^ 31 - 1 < s.x.len ∨
      ¬(-(2 ^ 31) ≤ s.x.stride ∧ s.x.stride ≤ 2 ^ 31 - 1))
    (ht1 : t.layout = some BLASLayout.ColMajor)
    (ht2 : (get_layout_array2 t.a).is_fpref = true)
    (ht3 : syrkDims t.trans t.a = Except.ok nk)
    (ht4 : syrkTransCheck isComplex hermi t.trans = Except.ok ())
    (ht5 : t.c = some cv)
    (ht6 : cv.d0 = nk.1 ∧ cv.d1 = nk.1)
    (ht7 : (get_layout_array2 cv).is_fpref = true)
    (hto : 2 ^ 31 - 1 < nk.1 ∨ 2 ^ 31 - 1 < nk.2 ∨
      ¬(-(2 ^ 31) ≤ t.a.s1 ∧ t.a.s1 ≤ 2 ^ 31 - 1) ∨
      ¬(-(2 ^ 31) ≤ cv.s1 ∧ cv.s1 ≤ 2 ^ 31 - 1)) :
    TPSV_driver s = Except.error BLASError.overflow ∧
    SYRK_driver isComplex hermi z t = Except.error BLASError.overflow := by
  constructor
  · unfold TPSV_driver
    rw [if_neg hs1, if_neg (by simp [hs2])]
    rcases tryIntoCNat_cases s.x.len with ⟨hfit, hok⟩ | ⟨_, herr⟩
    · rw [hok]
      rcases hso with h | h
      · omega
      · rcases tryIntoCInt_cases s.x.stride with ⟨hfit2, _⟩ | ⟨_, herr2⟩
        · exact absurd hfit2 h
        · rw [herr2]
    · rw [herr]
  · have hc : syrkPrepareC t.c nk.1 z = Except.ok (ArrayOut.ViewMut cv) := by
      simp [syrkPrepareC, ht5, ht6, ht7]
    simp only [SYRK_driver, ht1, ht3, ht4, hc]
    rw [if_neg (by simp), if_neg (by simp [ht2])]
    rcases tryIntoCNat_cases nk.1 with ⟨hfit1, hok1⟩ | ⟨_, herr1⟩
    · rcases tryIntoCNat_cases nk.2 with ⟨hfit2, hok2⟩ | ⟨_, herr2⟩
      · rcases tryIntoCInt_cases t.a.s1 with ⟨hfit3, hok3⟩ | ⟨_, herr3⟩
        · rcases tryIntoCInt_cases cv.s1 with ⟨hfit4, hok4⟩ | ⟨_, herr4⟩
          · rcases hto with h | h | h | h
            · omega
            · omega
            · exact absurd hfit3 h
            · exact absurd hfit4 h
          · simp [hok1, hok2, hok3, herr4, ArrayOut.view]
        · simp [hok1, hok2, herr3]
      · simp [hok1, herr2]
    · simp [herr1]

/-- C8 witness: a vector length of `2^31` (and a rank-k `n` of `2^31`) are
rejected with an overflow error instead of being truncated. -/
theorem integer_overflow_errors_witness :
    TPSV_driver (⟨⟨2305843010287435776, 1, fun _ => (0 : Int)⟩,
        ⟨2147483648, 1, fun _ => 0⟩, BLASUpLo.Upper, BLASTranspose.NoTrans,
        BLASDiag.NonUnit, none⟩ : TPSV_args Int)
      = Except.error BLASError.overflow ∧
    SYRK_driver false false (0 : Int)
        (⟨⟨2147483648, 2147483648, 1, 2147483648, fun _ _ => (0 : Int)⟩,
          some ⟨2147483648, 2147483648, 1, 2147483648, fun _ _ => 0⟩, (1 : Int), 0,
          BLASUpLo.Upper, BLASTranspose.NoTrans, some BLASLayout.ColMajor⟩ : SYRK_args Int Int)
      = Except.error BLASError.overflow :=
  integer_overflow_errors false false 0
    ⟨⟨2305843010287435776, 1, fun _ => 0⟩, ⟨2147483648, 1, fun _ => 0⟩, BLASUpLo.Upper,
      BLASTranspose.NoTrans, BLASDiag.NonUnit, none⟩
    ⟨⟨2147483648, 2147483648, 1, 2147483648, fun _ _ => 0⟩,
      some ⟨2147483648, 2147483648, 1, 2147483648, fun _ _ => 0⟩, 1, 0, BLASUpLo.Upper,
      BLASTranspose.NoTrans, some BLASLayout.ColMajor⟩
    ⟨2147483648, 2147483648, 1, 2147483648, fun _ _ => 0⟩ ⟨2147483648, 2147483648⟩
    (by decide) (by decide) (Or.inl (by decide)) rfl rfl rfl rfl rfl (by decide) rfl
    (Or.inl (by decide))

/-- C9: a shadow pair built by the rank-k builder's output preparation has
caller view and shadow buffer of identical logical shape; reading or writing
through the container (`view` / `view_mut`) touches only the shadow buffer,
never the caller's view, until the final assignment; and every container is
in exactly one of the three states. -/
theorem shadow_pair_invariants {F : Type} (copt : Option (MatView F)) (n : Nat) (z : F)
    (v o : MatView F)
    (h : syrkPrepareC copt n z = Except.ok (ArrayOut.ToBeCloned v o)) :
    (v.d0 = o.d0 ∧ v.d1 = o.d1) ∧
    ArrayOut.view (ArrayOut.ToBeCloned v o) = o ∧
    ArrayOut.view_mut (ArrayOut.ToBeCloned v o) = o ∧
    (∀ x : ArrayOut (MatView F),
      (∃ w, x = ArrayOut.ViewMut w) ∨ (∃ w, x = ArrayOut.Owned w) ∨
        ∃ w w', x = ArrayOut.ToBeCloned w w') := by
  refine ⟨?_, rfl, rfl, ?_⟩
  · cases copt with
    | none => simp [syrkPrepareC] at h
    | some cv =>
      simp only [syrkPrepareC] at h
      split at h
      · split at h
        · simp at h
        · injection h with h1
          injection h1 with hv ho
          subst hv
          subst ho
          exact ⟨rfl, rfl⟩
      · cases h
  · intro x
    cases x with
    | ViewMut w => exact Or.inl ⟨w, rfl⟩
    | Owned w => exact Or.inr (Or.inl ⟨w, rfl⟩)
    | ToBeCloned w w' => exact Or.inr (Or.inr ⟨w, w', rfl⟩)

/-- C9 witness: the shadow pair built for a concrete 2×2 row-major caller
`C` has matching shapes and shadow-only access. -/
theorem shadow_pair_invariants_witness :
    ((⟨2, 2, 2, 1, fun _ _ => (0 : Int)⟩ : MatView Int).d0
        = (MatView.t (MatView.std (MatView.t ⟨2, 2, 2, 1, fun _ _ => (0 : Int)⟩))).d0 ∧
      (⟨2, 2, 2, 1, fun _ _ => (0 : Int)⟩ : MatView Int).d1
        = (MatView.t (MatView.std (MatView.t ⟨2, 2, 2, 1, fun _ _ => (0 : Int)⟩))).d1) ∧
    ArrayOut.view (ArrayOut.ToBeCloned (⟨2, 2, 2, 1, fun _ _ => (0 : Int)⟩ : MatView Int)
        (MatView.t (MatView.std (MatView.t ⟨2, 2, 2, 1, fun _ _ => 0⟩))))
      = MatView.t (MatView.std (MatView.t ⟨2, 2, 2, 1, fun _ _ => 0⟩)) ∧
    ArrayOut.view_mut (ArrayOut.ToBeCloned (⟨2, 2, 2, 1, fun _ _ => (0 : Int)⟩ : MatView Int)
        (MatView.t (MatView.std (MatView.t ⟨2, 2, 2, 1, fun _ _ => 0⟩))))
      = MatView.t (MatView.std (MatView.t ⟨2, 2, 2, 1, fun _ _ => 0⟩)) ∧
    (∀ x : ArrayOut (MatView Int),
      (∃ w, x = ArrayOut.ViewMut w) ∨ (∃ w, x = ArrayOut.Owned w) ∨
        ∃ w w', x = ArrayOut.ToBeCloned w w') :=
  shadow_pair_invariants (some ⟨2, 2, 2, 1, fun _ _ => 0⟩) 2 0
    ⟨2, 2, 2, 1, fun _ _ => 0⟩
    (MatView.t (MatView.std (MatView.t ⟨2, 2, 2, 1, fun _ _ => 0⟩))) (by rfl)

/-- If the claim's allowed-set predicate rejects a selector, the shared
transpose-validity check fails with the invalid-transpose error. -/
theorem syrkTransCheck_of_not_allowed (isComplex hermi : Bool) (t : BLASTranspose)
    (h : syrkAllowedSpec isComplex hermi t = false) :
    syrkTransCheck isComplex hermi t = Except.error BLASError.invalidTrans := by
  cases isComplex <;> cases hermi <;> cases t <;>
    simp_all [syrkAllowedSpec, syrkTransCheck]

/-- If the claim's allowed-set predicate accepts a selector, the shared
transpose-validity check passes. -/
theorem syrkTransCheck_of_allowed (isComplex hermi : Bool) (t : BLASTranspose)
    (h : syrkAllowedSpec isComplex hermi t = true) :
    syrkTransCheck isComplex hermi t = Except.ok () := by
  cases isComplex <;> cases hermi <;> cases t <;>
    simp_all [syrkAllowedSpec, syrkTransCheck]

/-- The allowed set is closed under the transpose flip used by the
wrappers. -/
theorem syrkAllowedSpec_flip (isComplex hermi : Bool) (t : BLASTranspose)
    (h : syrkAllowedSpec isComplex hermi t = true) :
    syrkAllowedSpec isComplex hermi (t.flip hermi) = true := by
  cases isComplex <;> cases hermi <;> cases t <;>
    simp_all [syrkAllowedSpec, BLASTranspose.flip]

/-- An allowed selector always yields dimensions. -/
theorem syrkDims_of_allowed {F : Type} (isComplex hermi : Bool) (t : BLASTranspose)
    (a : MatView F) (h : syrkAllowedSpec isComplex hermi t = true) :
    ∃ p, syrkDims t a = Except.ok p := by
  cases isComplex <;> cases hermi <;> cases t <;>
    simp_all [syrkAllowedSpec, syrkDims]

/-- The output-preparation step fails only with the invalid-dimension
error. -/
theorem syrkPrepareC_errors {F : Type} (copt : Option (MatView F)) (n : Nat) (z : F)
    (e : BLASError) (h : syrkPrepareC copt n z = Except.error e) :
    e = BLASError.invalidDim := by
  cases copt with
  | none => simp [syrkPrepareC] at h
  | some cv =>
    simp only [syrkPrepareC] at h
    split at h
    · split at h <;> cases h
    · injection h with h1
      exact h1.symm

/-- `tryIntoCNat` fails only with the overflow error. -/
theorem tryIntoCNat_errors (n : Nat) (e : BLASError)
    (h : tryIntoCNat n = Except.error e) : e = BLASError.overflow := by
  unfold tryIntoCNat at h
  split at h
  · cases h
  · injection h with h1
    exact h1.symm

/-- `tryIntoCInt` fails only with the overflow error. -/
theorem tryIntoCInt_errors (i : Int) (e : BLASError)
    (h : tryIntoCInt i = Except.error e) : e = BLASError.overflow := by
  unfold tryIntoCInt at h
  split at h
  · cases h
  · injection h with h1
    exact h1.symm

/-- The rank-k driver never returns the invalid-transpose error once its
selector lies in the allowed set: every later failure is a panic, an
invalid-dimension error or an overflow. -/
theorem SYRK_driver_not_invalidTrans {F R : Type} (isComplex hermi : Bool) (z : F)
    (s : SYRK_args F R) (h : syrkAllowedSpec isComplex hermi s.trans = true) :
    SYRK_driver isComplex hermi z s ≠ Except.error BLASError.invalidTrans := by
  unfold SYRK_driver
  split
  · simp
  · split
    · simp
    · obtain ⟨p, hp⟩ := syrkDims_of_allowed isComplex hermi s.trans s.a h
      simp only [hp, syrkTransCheck_of_allowed isComplex hermi s.trans h]
      cases hq : syrkPrepareC s.c p.1 z with
      | error e =>
        have he := syrkPrepareC_errors s.c p.1 z e hq
        simp [hq, he]
      | ok c =>
        simp only [hq]
        cases h1 : tryIntoCNat p.1 with
        | error e => have := tryIntoCNat_errors p.1 e h1; simp [h1, this]
        | ok nI =>
          simp only [h1]
          cases h2 : tryIntoCNat p.2 with
          | error e => have := tryIntoCNat_errors p.2 e h2; simp [h2, this]
          | ok kI =>
            simp only [h2]
            cases h3 : tryIntoCInt s.a.s1 with
            | error e => have := tryIntoCInt_errors s.a.s1 e h3; simp [h3, this]
            | ok ldaI =>
              simp only [h3]
              cases h4 : tryIntoCInt c.view.s1 with
              | error e => have := tryIntoCInt_errors c.view.s1 e h4; simp [h4, this]
              | ok ldcI => simp [h4]

/-- `SYRK_Driver::run_blas` always succeeds in the embedding (the native
call itself cannot fail through this boundary). -/
theorem SYRK_run_blas_ok {F R : Type} (kernel : SyrkKernel F R) (d : SYRK_Driver F R)
    (e : BLASError) : SYRK_run_blas kernel d ≠ Except.error e := by
  unfold SYRK_run_blas
  split <;> simp

/-- On an allowed selector, `flip_trans_fpref` succeeds and returns a
selector still in the allowed set. -/
theorem flip_trans_fpref_of_allowed {F : Type} (conj : F → F) (isComplex hermi : Bool)
    (t : BLASTranspose) (v vt : MatView F)
    (h : syrkAllowedSpec isComplex hermi t = true) :
    ∃ fl, flip_trans_fpref conj t v vt hermi = Except.ok fl ∧
      syrkAllowedSpec isComplex hermi fl.1 = true := by
  unfold flip_trans_fpref
  cases hb : (get_layout_array2 v).is_fpref with
  | true => exact ⟨(t, vt.std), rfl, h⟩
  | false =>
    cases t with
    | NoTrans => exact ⟨_, rfl, syrkAllowedSpec_flip isComplex hermi _ h⟩
    | Trans => exact ⟨_, rfl, syrkAllowedSpec_flip isComplex hermi _ h⟩
    | ConjTrans => exact ⟨_, rfl, syrkAllowedSpec_flip isComplex hermi _ h⟩
    | ConjNoTrans => cases isComplex <;> cases hermi <;> simp [syrkAllowedSpec] at h

/-- On an allowed selector, `flip_trans_cpref` succeeds and returns a
selector still in the allowed set. -/
theorem flip_trans_cpref_of_allowed {F : Type} (conj : F → F) (isComplex hermi : Bool)
    (t : BLASTranspose) (v vt : MatView F)
    (h : syrkAllowedSpec isComplex hermi t = true) :
    ∃ fl, flip_trans_cpref conj t v vt hermi = Except.ok fl ∧
      syrkAllowedSpec isComplex hermi fl.1 = true := by
  unfold flip_trans_cpref
  cases hb : (get_layout_array2 v).is_cpref with
  | true => exact ⟨(t, v.std), rfl, h⟩
  | false =>
    cases t with
    | NoTrans => exact ⟨_, rfl, syrkAllowedSpec_flip isComplex hermi _ h⟩
    | Trans => exact ⟨_, rfl, syrkAllowedSpec_flip isComplex hermi _ h⟩
    | ConjTrans => exact ⟨_, rfl, syrkAllowedSpec_flip isComplex hermi _ h⟩
    | ConjNoTrans => cases isComplex <;> cases hermi <;> simp [syrkAllowedSpec] at h

/-- C5: a rank-k dispatch accepts its transpose selector exactly when it
lies in the operation's allowed set — {no-transpose, transpose,
conjugate-transpose} for symmetric updates over real element types,
{no-transpose, transpose} for symmetric updates over complex element types,
{no-transpose, conjugate-transpose} for Hermitian updates; any other
combination returns the invalid-parameter error straight from the wrapper's
validity check, before the layout election and hence before any kernel
invocation, while an allowed selector never produces that error anywhere in
the dispatch. -/
theorem syrk_trans_selector_validation {F R : Type} (kernel : SyrkKernel F R)
    (conj : F → F) (isComplex hermi : Bool) (z : F) (s : SYRK_args F R) :
    (syrkAllowedSpec isComplex hermi s.trans = false →
      SYRK_run kernel conj isComplex hermi z s = Except.error BLASError.invalidTrans) ∧
    (syrkAllowedSpec isComplex hermi s.trans = true →
      SYRK_run kernel conj isComplex hermi z s ≠ Except.error BLASError.invalidTrans) := by
  constructor
  · intro h
    simp [SYRK_run, syrkTransCheck_of_not_allowed isComplex hermi s.trans h]
  · intro h
    unfold SYRK_run
    simp only [syrkTransCheck_of_allowed isComplex hermi s.trans h]
    split
    · obtain ⟨fl, hfl, hal⟩ :=
        flip_trans_fpref_of_allowed conj isComplex hermi s.trans s.a s.a.t h
      simp only [hfl]
      cases hd : SYRK_driver isComplex hermi z
          ⟨fl.2.t, s.c, s.alpha, s.beta, s.uplo, fl.1, some BLASLayout.ColMajor⟩ with
      | error e =>
        have hne := SYRK_driver_not_invalidTrans isComplex hermi z
          ⟨fl.2.t, s.c, s.alpha, s.beta, s.uplo, fl.1, some BLASLayout.ColMajor⟩ hal
        simp only [hd]
        intro hcon
        injection hcon with he
        exact hne (by rw [hd, he])
      | ok d =>
        simp only [hd]
        exact SYRK_run_blas_ok kernel d BLASError.invalidTrans
    · split
      · obtain ⟨fl, hfl, hal⟩ :=
          flip_trans_cpref_of_allowed conj isComplex hermi s.trans s.a s.a.t h
        simp only [hfl]
        cases hd : SYRK_driver isComplex hermi z
            ⟨fl.2.t, s.c.map (fun cv => cv.t), s.alpha, s.beta, s.uplo.flip,
              fl.1.flip hermi, some BLASLayout.ColMajor⟩ with
        | error e =>
          have hne := SYRK_driver_not_invalidTrans isComplex hermi z
            ⟨fl.2.t, s.c.map (fun cv => cv.t), s.alpha, s.beta, s.uplo.flip,
              fl.1.flip hermi, some BLASLayout.ColMajor⟩
            (syrkAllowedSpec_flip isComplex hermi fl.1 hal)
          simp only [hd]
          intro hcon
          injection hcon with he
          exact hne (by rw [hd, he])
        | ok d =>
          simp only [hd]
          cases hr : SYRK_run_blas kernel d with
          | error e => exact absurd hr (SYRK_run_blas_ok kernel d e)
          | ok out => simp [hr]
      · simp

/-- C5 witness: for a Hermitian update (complex elements), a plain transpose
request is rejected with the invalid-parameter error while no-transpose is
accepted, on a concrete column-major 2×2 operand. -/
theorem syrk_trans_selector_validation_witness :
    SYRK_run (F := Int) (R := Int) (fun _ _ _ _ _ a _ _ _ _ => a) (fun x => x) true true 0
        ⟨⟨2, 2, 1, 2, fun _ _ => 0⟩, none, 1, 0, BLASUpLo.Lower, BLASTranspose.Trans, none⟩
      = Except.error BLASError.invalidTrans ∧
    SYRK_run (F := Int) (R := Int) (fun _ _ _ _ _ a _ _ _ _ => a) (fun x => x) true true 0
        ⟨⟨2, 2, 1, 2, fun _ _ => 0⟩, none, 1, 0, BLASUpLo.Lower, BLASTranspose.NoTrans, none⟩
      ≠ Except.error BLASError.invalidTrans :=
  ⟨(syrk_trans_selector_validation (fun _ _ _ _ _ a _ _ _ _ => a) (fun x => x) true true 0
      ⟨⟨2, 2, 1, 2, fun _ _ => 0⟩, none, 1, 0, BLASUpLo.Lower, BLASTranspose.Trans, none⟩).1 rfl,
   (syrk_trans_selector_validation (fun _ _ _ _ _ a _ _ _ _ => a) (fun x => x) true true 0
      ⟨⟨2, 2, 1, 2, fun _ _ => 0⟩, none, 1, 0, BLASUpLo.Lower, BLASTranspose.NoTrans, none⟩).2 rfl⟩

end BlasArray2
